import Mathlib

/-!
Verification of the `simplessh` package (`simplessh.go`): a thin client
layer over ssh/sftp collaborator libraries.  The Go code is embedded
shallowly: ambient effects (current-user lookup, file reads, environment
variables, unix/tcp dials, the ssh handshake) are supplied by an explicit
`Env` record, and each operation returns its result together with a list
of the externally visible events it performed, so that properties such as
"no network dial is attempted" are statable.
-/

namespace SimpleSSH

/-- Model of a Go `error` value. -/
structure GoError where
  msg : String
deriving DecidableEq

/-- Model of `os/user.User`: the fields `simplessh.go` reads. -/
structure UserInfo where
  username : String
  homeDir : String
deriving DecidableEq

/-- Model of `ssh.AuthMethod`: the three constructors used in `simplessh.go`
(`ssh.Password`, `ssh.PublicKeys` on a parsed signer, and
`ssh.PublicKeysCallback` on an agent connection). -/
inductive AuthMethod where
  | password (pass : String)
  | publicKeys (signer : Nat)
  | publicKeysCallback (agentConn : Nat)
deriving DecidableEq

/-- Model of `ssh.ClientConfig`: the struct literal in `connect` sets only
`User` and `Auth`, leaving `HostKeyCallback` at its zero value (nil),
modelled as `none`. -/
structure ClientConfig where
  user : String
  auth : List AuthMethod
  hostKeyCallback : Option Nat
deriving DecidableEq

/-- Externally visible events performed by the connect functions. -/
inductive Event where
  | userLookup
  | readFile (path : String)
  | dialUnix (addr : String)
  | dialTCP (addr : String) (timeout : Nat)
  | handshake (addr : String) (config : ClientConfig)
deriving DecidableEq

/-- Model of `simplessh.Client` (wraps an `ssh.Client`, here an id). -/
structure Client where
  sshClient : Nat
deriving DecidableEq

/-- The ambient world an invocation of the connect functions runs in:
each field models one collaborator call made by `simplessh.go`. -/
structure Env where
  currentUser : Except GoError UserInfo
  readFile : String → Except GoError String
  parsePrivateKey : String → Except GoError Nat
  getenv : String → String
  dialUnix : String → Except GoError Nat
  dialTCP : String → Nat → Except GoError Nat
  newClientConn : Nat → String → ClientConfig → Except GoError Nat

/- ### Go `net` collaborator: SplitHostPort / JoinHostPort

`addPortToHost` delegates host/port detection to `net.SplitHostPort` and
port appending to `net.JoinHostPort`; both are embedded faithfully from
the Go standard library (character-level; the delimiters involved are all
ASCII, so byte indices and character indices agree).  Error messages are
paraphrased without punctuation; no caller inspects them. -/

/-- Index of the first occurrence of a character in a list, if any. -/
def idxOf : List Char → Char → Option Nat
  | [], _ => none
  | a :: as, c => if a = c then some 0 else (idxOf as c).map (fun n => n + 1)

/-- Index of the last occurrence of a character in a list, if any. -/
def lastIdxOf (l : List Char) (c : Char) : Option Nat :=
  match idxOf l.reverse c with
  | none => none
  | some i => some (l.length - 1 - i)

/-- Model of Go `net.SplitHostPort`. -/
def splitHostPort (hostport : String) : Except String (String × String) :=
  let l := hostport.data
  match lastIdxOf l ':' with
  | none => Except.error "missing port in address"
  | some i =>
    if l.head? = some '[' then
      match idxOf l ']' with
      | none => Except.error "missing right bracket in address"
      | some e =>
        if e + 1 = l.length then
          Except.error "missing port in address"
        else if e + 1 = i then
          if (l.drop 1).contains '[' then
            Except.error "unexpected left bracket in address"
          else if (l.drop (e + 1)).contains ']' then
            Except.error "unexpected right bracket in address"
          else
            Except.ok (String.mk ((l.take e).drop 1), String.mk (l.drop (i + 1)))
        else if (l.drop (e + 1)).head? = some ':' then
          Except.error "too many colons in address"
        else
          Except.error "missing port in address"
    else
      if (l.take i).contains ':' then
        Except.error "too many colons in address"
      else if l.contains '[' then
        Except.error "unexpected left bracket in address"
      else if l.contains ']' then
        Except.error "unexpected right bracket in address"
      else
        Except.ok (String.mk (l.take i), String.mk (l.drop (i + 1)))

/-- Model of Go `net.JoinHostPort`: hosts containing a colon are assumed
to be IPv6 literals and get square brackets. -/
def joinHostPort (host port : String) : String :=
  if host.data.contains ':' then "[" ++ host ++ "]:" ++ port
  else host ++ ":" ++ port

/-- Function `addPortToHost` from `simplessh.go`: if `net.SplitHostPort` fails,
blindly add port 22 via `net.JoinHostPort`; otherwise return unchanged. -/
def addPortToHost (host : String) : String :=
  match splitHostPort host with
  | Except.error _ => joinHostPort host "22"
  | Except.ok _ => host

/-- Whether an `Except` value is an error. -/
def exceptIsError {ε α : Type} : Except ε α → Bool
  | Except.error _ => true
  | Except.ok _ => false

/-- Model of Go `path/filepath.Join` for already-clean, non-empty
components (the use in `simplessh.go` joins a home directory with
`".ssh"` and `"id_rsa"`): empty components are dropped and the rest are
joined with `/`. -/
def filepathJoin (parts : List String) : String :=
  String.intercalate "/" (parts.filter fun p => p != "")

/-- Constant `DefaultTimeout` from `simplessh.go`: `30 * time.Second`, with
`time.Duration` modelled as nanoseconds. -/
def DefaultTimeout : Nat := 30 * 1000000000

/-- The private `connect` function of `simplessh.go`: resolve an empty
username via `user.Current()`, build the `ssh.ClientConfig` with the
single supplied auth method, normalize the host, dial TCP with the
timeout, then perform the handshake via `ssh.NewClientConn`. -/
def connect (env : Env) (username host : String) (authMethod : AuthMethod)
    (timeout : Nat) : Except GoError Client × List Event :=
  let resolved : Except GoError String × List Event :=
    if username = "" then
      match env.currentUser with
      | Except.error e =>
        (Except.error (GoError.mk
          ("Username was not specified and could not get current user: " ++ e.msg)),
         [Event.userLookup])
      | Except.ok u => (Except.ok u.username, [Event.userLookup])
    else (Except.ok username, [])
  match resolved with
  | (Except.error e, evs) => (Except.error e, evs)
  | (Except.ok uname, evs) =>
    let config : ClientConfig :=
      { user := uname, auth := [authMethod], hostKeyCallback := none }
    let host2 := addPortToHost host
    match env.dialTCP host2 timeout with
    | Except.error e => (Except.error e, evs ++ [Event.dialTCP host2 timeout])
    | Except.ok conn =>
      match env.newClientConn conn host2 config with
      | Except.error e =>
        (Except.error e,
         evs ++ [Event.dialTCP host2 timeout, Event.handshake host2 config])
      | Except.ok sconn =>
        (Except.ok { sshClient := sconn },
         evs ++ [Event.dialTCP host2 timeout, Event.handshake host2 config])

/-- Function `ConnectWithPasswordTimeout`: wraps the password via `ssh.Password`. -/
def ConnectWithPasswordTimeout (env : Env) (host username pass : String)
    (timeout : Nat) : Except GoError Client × List Event :=
  connect env username host (AuthMethod.password pass) timeout

/-- Function `ConnectWithPassword`: just `ConnectWithPasswordTimeout` at `DefaultTimeout`. -/
def ConnectWithPassword (env : Env) (host username pass : String) :
    Except GoError Client × List Event :=
  ConnectWithPasswordTimeout env host username pass DefaultTimeout

/-- Function `ConnectWithKeyTimeout`: parse the key via `ssh.ParsePrivateKey`,
returning the parse error on failure, else connect with `ssh.PublicKeys`. -/
def ConnectWithKeyTimeout (env : Env) (host username privKey : String)
    (timeout : Nat) : Except GoError Client × List Event :=
  match env.parsePrivateKey privKey with
  | Except.error e => (Except.error e, [])
  | Except.ok signer =>
    connect env username host (AuthMethod.publicKeys signer) timeout

/-- Function `ConnectWithKey`: just `ConnectWithKeyTimeout` at `DefaultTimeout`. -/
def ConnectWithKey (env : Env) (host username privKey : String) :
    Except GoError Client × List Event :=
  ConnectWithKeyTimeout env host username privKey DefaultTimeout

/-- The key path `ConnectWithKeyFileTimeout` actually reads: an empty
`privKeyPath` is replaced by `<home>/.ssh/id_rsa` when `user.Current()`
succeeds; on lookup failure the error is ignored and the path stays
empty. -/
def resolveKeyPath (env : Env) (privKeyPath : String) : String :=
  if privKeyPath = "" then
    match env.currentUser with
    | Except.ok u => filepathJoin [u.homeDir, ".ssh", "id_rsa"]
    | Except.error _ => privKeyPath
  else privKeyPath

/-- Function `ConnectWithKeyFileTimeout`: default the path, read the key file
(returning the read error on failure), then `ConnectWithKeyTimeout`. -/
def ConnectWithKeyFileTimeout (env : Env) (host username privKeyPath : String)
    (timeout : Nat) : Except GoError Client × List Event :=
  let path := resolveKeyPath env privKeyPath
  let evs0 : List Event := if privKeyPath = "" then [Event.userLookup] else []
  match env.readFile path with
  | Except.error e => (Except.error e, evs0 ++ [Event.readFile path])
  | Except.ok privKey =>
    let r := ConnectWithKeyTimeout env host username privKey timeout
    (r.1, evs0 ++ [Event.readFile path] ++ r.2)

/-- Function `ConnectWithKeyFile`: just `ConnectWithKeyFileTimeout` at `DefaultTimeout`. -/
def ConnectWithKeyFile (env : Env) (host username privKeyPath : String) :
    Except GoError Client × List Event :=
  ConnectWithKeyFileTimeout env host username privKeyPath DefaultTimeout

/-- Function `ConnectWithSshAgentTimeout`: dial the unix socket named by
`SSH_AUTH_SOCK` (returning the dial error on failure), then connect with
`ssh.PublicKeysCallback` over the agent connection. -/
def ConnectWithSshAgentTimeout (env : Env) (host username : String)
    (timeout : Nat) : Except GoError Client × List Event :=
  let sock := env.getenv "SSH_AUTH_SOCK"
  match env.dialUnix sock with
  | Except.error e => (Except.error e, [Event.dialUnix sock])
  | Except.ok agentConn =>
    let r := connect env username host (AuthMethod.publicKeysCallback agentConn) timeout
    (r.1, Event.dialUnix sock :: r.2)

/-- Function `ConnectWithSshAgent`: just `ConnectWithSshAgentTimeout` at `DefaultTimeout`. -/
def ConnectWithSshAgent (env : Env) (host username : String) :
    Except GoError Client × List Event :=
  ConnectWithSshAgentTimeout env host username DefaultTimeout

/- ### Client operations (session handle) -/

/-- Result of `ssh.Session.Run` with `Stdout`/`Stderr` wired to buffers:
the accumulated byte streams and the run error, if any. -/
structure RunResult where
  stdout : List Nat
  stderr : List Nat
  runErr : Option GoError

/-- Model of an open `ssh.Session` as used by `ExecWithOutputStreams`. -/
structure SessionOps where
  run : String → RunResult

/-- Model of a remote file handle: what `ioutil.ReadAll` on it yields. -/
structure RemoteFile where
  readAllResult : Except GoError (List Nat)

/-- Model of an `sftp.Client` as used by `ReadAll`. -/
structure SftpOps where
  openFile : String → Except GoError RemoteFile

/-- The collaborator calls a connected `Client`'s methods make. -/
structure ClientEnv where
  newSession : Except GoError SessionOps
  sftpNewClient : Except GoError SftpOps

/-- Result of a call that can succeed, return an error, or panic. -/
inductive Outcome (α : Type) where
  | ok (a : α)
  | error (e : GoError)
  | panicked (e : GoError)
deriving DecidableEq

/-- Method `Client.ReadAll` from `simplessh.go`: a failure to build the sftp
sub-client panics; a failure to open the remote path (or to read it) is
returned as an error. -/
def ReadAll (env : ClientEnv) (filepath : String) : Outcome (List Nat) :=
  match env.sftpNewClient with
  | Except.error e => Outcome.panicked e
  | Except.ok sftp =>
    match sftp.openFile filepath with
    | Except.error e => Outcome.error e
    | Except.ok file =>
      match file.readAllResult with
      | Except.error e => Outcome.error e
      | Except.ok bs => Outcome.ok bs

/-- Method `Client.ExecWithOutputStreams` from `simplessh.go`: open a session
(returning nil buffers and the error on failure), run the command with
stdout and stderr accumulated separately, and return both buffers
together with the run error. `none` models a nil byte slice. -/
def ExecWithOutputStreams (env : ClientEnv) (cmd : String) :
    Option (List Nat) × Option (List Nat) × Option GoError :=
  match env.newSession with
  | Except.error e => (none, none, some e)
  | Except.ok session =>
    let r := session.run cmd
    (some r.stdout, some r.stderr, r.runErr)

/- ### Event-trace predicates -/

/-- Whether a trace contains a TCP dial to the target host. -/
def hasDialTCP (evs : List Event) : Bool :=
  evs.any fun e =>
    match e with
    | Event.dialTCP _ _ => true
    | _ => false

/-- Every handshake in the trace uses username `u`. -/
def allHandshakeUser (evs : List Event) (u : String) : Bool :=
  evs.all fun e =>
    match e with
    | Event.handshake _ cfg => cfg.user == u
    | _ => true

/-- Every handshake in the trace carries exactly one auth method. -/
def allHandshakeSingleAuth (evs : List Event) : Bool :=
  evs.all fun e =>
    match e with
    | Event.handshake _ cfg => cfg.auth.length == 1
    | _ => true

/-- Every handshake in the trace has no host-key callback set. -/
def allHandshakeNoHostKey (evs : List Event) : Bool :=
  evs.all fun e =>
    match e with
    | Event.handshake _ cfg => cfg.hostKeyCallback.isNone
    | _ => true

/-- Number of handshakes in the trace. -/
def handshakeCount (evs : List Event) : Nat :=
  (evs.filter fun e =>
    match e with
    | Event.handshake _ _ => true
    | _ => false).length

/-- The file paths read in the trace, in order. -/
def filesRead (evs : List Event) : List String :=
  evs.filterMap fun e =>
    match e with
    | Event.readFile p => some p
    | _ => none

/- ### Concrete environments used by the witnesses -/

/-- A fixed current user. -/
def testUser : UserInfo := { username := "alice", homeDir := "/home/alice" }

/-- A world where the current user resolves, the default key file holds a
parsable key, no ssh agent is reachable, and dial plus handshake succeed. -/
def testEnv : Env :=
  { currentUser := Except.ok testUser,
    readFile := fun p =>
      if p == "/home/alice/.ssh/id_rsa" then Except.ok "TESTKEY"
      else Except.error (GoError.mk "open failed"),
    parsePrivateKey := fun s =>
      if s == "TESTKEY" then Except.ok 7
      else Except.error (GoError.mk "ssh no key found"),
    getenv := fun _ => "",
    dialUnix := fun _ => Except.error (GoError.mk "dial unix missing address"),
    dialTCP := fun _ _ => Except.ok 1,
    newClientConn := fun _ _ _ => Except.ok 2 }

/-- Like `testEnv`, except current-user lookup fails. -/
def failUserEnv : Env :=
  { testEnv with currentUser := Except.error (GoError.mk "user lookup failed") }

/-- Like `testEnv`, except every file read yields bytes that do not parse as a
private key. -/
def badKeyEnv : Env :=
  { testEnv with readFile := fun _ => Except.ok "garbage" }

/- ### Theorems -/

/-- Claim C1 fails as stated: `"::1"` does not contain a port
(`net.SplitHostPort` rejects it), yet the dialed endpoint is not
`"::1" ++ ":22"` — `net.JoinHostPort` brackets hosts containing a colon,
so the endpoint is `"[::1]:22"`. -/
theorem addPortToHost_claim_counterexample :
    exceptIsError (splitHostPort "::1") = true ∧
    addPortToHost "::1" = "[::1]:22" ∧
    ¬ addPortToHost "::1" = "::1" ++ ":22" := by
  refine ⟨rfl, rfl, ?_⟩
  decide

/-- Claim C1 (amended): for every host string that already contains a
port (`net.SplitHostPort` succeeds), normalization returns it unchanged;
for every host string without a port and without a colon, the endpoint is
`host ++ ":22"`; for every host string without a port but containing a
colon (an unbracketed IPv6 literal), the endpoint is the bracketed form
`"[" ++ host ++ "]:22"`. -/
theorem addPortToHost_normalized (host : String) :
    (∀ hp, splitHostPort host = Except.ok hp → addPortToHost host = host) ∧
    (∀ e, splitHostPort host = Except.error e → host.data.contains ':' = false →
      addPortToHost host = host ++ ":22") ∧
    (∀ e, splitHostPort host = Except.error e → host.data.contains ':' = true →
      addPortToHost host = "[" ++ host ++ "]:22") := by
  refine ⟨fun hp h => ?_, fun e h hc => ?_, fun e h hc => ?_⟩
  · simp [addPortToHost, h]
  · simp at hc
    simp [addPortToHost, h, joinHostPort, hc, String.append_assoc]
  · simp at hc
    simp [addPortToHost, h, joinHostPort, hc, String.append_assoc]

/-- Witness for C1 (amended): a plain hostname gets `:22` appended, and a
host that already carries a port is left unchanged. -/
theorem addPortToHost_normalized_witness :
    addPortToHost "localhost" = "localhost" ++ ":22" ∧
    addPortToHost "10.0.0.1:2222" = "10.0.0.1:2222" :=
  ⟨(addPortToHost_normalized "localhost").2.1 "missing port in address" rfl rfl,
   (addPortToHost_normalized "10.0.0.1:2222").1 ("10.0.0.1", "2222") rfl⟩

/-- Claim C2: in `ReadAll`, a failure to construct the sftp sub-client
panics (aborts the process) instead of returning an error, while a
failure to open the remote path after successful sub-client construction
is returned as an ordinary error value. -/
theorem readAll_sftp_failure_panics (env : ClientEnv) (p : String) :
    (∀ e, env.sftpNewClient = Except.error e →
      ReadAll env p = Outcome.panicked e) ∧
    (∀ ops e, env.sftpNewClient = Except.ok ops →
      ops.openFile p = Except.error e →
      ReadAll env p = Outcome.error e) := by
  constructor
  · intro e h
    simp [ReadAll, h]
  · intro ops e h h2
    simp [ReadAll, h, h2]

/-- A connected client whose sftp sub-client construction fails. -/
def sftpFailClientEnv : ClientEnv :=
  { newSession := Except.error (GoError.mk "no session"),
    sftpNewClient := Except.error (GoError.mk "sftp subsystem failed") }

/-- An sftp sub-client for which every remote open fails. -/
def openFailOps : SftpOps :=
  { openFile := fun _ => Except.error (GoError.mk "file does not exist") }

/-- A connected client whose sftp sub-client opens but every remote open
fails. -/
def openFailClientEnv : ClientEnv :=
  { newSession := Except.error (GoError.mk "no session"),
    sftpNewClient := Except.ok openFailOps }

/-- Witness for C2: concrete sub-client failure panics, concrete open
failure returns an error. -/
theorem readAll_sftp_failure_panics_witness :
    ReadAll sftpFailClientEnv "/etc/hosts" =
      Outcome.panicked (GoError.mk "sftp subsystem failed") ∧
    ReadAll openFailClientEnv "/etc/hosts" =
      Outcome.error (GoError.mk "file does not exist") :=
  ⟨(readAll_sftp_failure_panics sftpFailClientEnv "/etc/hosts").1 _ rfl,
   (readAll_sftp_failure_panics openFailClientEnv "/etc/hosts").2 openFailOps _ rfl rfl⟩

/-- Claim C5: each connect variant without an explicit timeout equals its
Timeout-taking counterpart at `DefaultTimeout`, and `DefaultTimeout` is
30 seconds (in nanoseconds, the unit of Go `time.Duration`). -/
theorem connect_default_timeout_variants (env : Env)
    (host username pass privKey privKeyPath : String) :
    ConnectWithPassword env host username pass =
      ConnectWithPasswordTimeout env host username pass DefaultTimeout ∧
    ConnectWithKey env host username privKey =
      ConnectWithKeyTimeout env host username privKey DefaultTimeout ∧
    ConnectWithKeyFile env host username privKeyPath =
      ConnectWithKeyFileTimeout env host username privKeyPath DefaultTimeout ∧
    ConnectWithSshAgent env host username =
      ConnectWithSshAgentTimeout env host username DefaultTimeout ∧
    DefaultTimeout = 30 * 1000000000 :=
  ⟨rfl, rfl, rfl, rfl, rfl⟩

/-- Claim C9: whenever the command session opens, `ExecWithOutputStreams`
returns the accumulated stdout and stderr buffers as two separate values
together with the run error — the buffers are present (not nil) even when
the run error is non-nil. -/
theorem execWithOutputStreams_returns_buffers (env : ClientEnv) (cmd : String) :
    ∀ s, env.newSession = Except.ok s →
      ExecWithOutputStreams env cmd =
        (some (s.run cmd).stdout, some (s.run cmd).stderr, (s.run cmd).runErr) := by
  intro s h
  simp [ExecWithOutputStreams, h]

/-- A session whose command run fails with a non-zero exit status while
having produced output on both streams. -/
def failingRunOps : SessionOps :=
  { run := fun _ =>
      { stdout := [104, 105], stderr := [98, 97, 100],
        runErr := some (GoError.mk "exit status 1") } }

/-- A connected client whose session opens and whose run fails. -/
def execClientEnv : ClientEnv :=
  { newSession := Except.ok failingRunOps,
    sftpNewClient := Except.error (GoError.mk "unused") }

/-- Witness for C9: with a failing run, both buffers come back alongside
the non-nil error. -/
theorem execWithOutputStreams_returns_buffers_witness :
    ExecWithOutputStreams execClientEnv "make" =
      (some [104, 105], some [98, 97, 100], some (GoError.mk "exit status 1")) :=
  execWithOutputStreams_returns_buffers execClientEnv "make" failingRunOps rfl

/-- Count of handshakes distributes over trace concatenation. -/
theorem handshakeCount_append (l1 l2 : List Event) :
    handshakeCount (l1 ++ l2) = handshakeCount l1 + handshakeCount l2 := by
  simp [handshakeCount, List.filter_append]

/-- Every trace `connect` can produce has every handshake carrying
exactly one auth method and no host-key callback, at most one handshake,
and no file reads. -/
theorem connect_trace_props (env : Env) (username host : String)
    (a : AuthMethod) (t : Nat) :
    allHandshakeSingleAuth (connect env username host a t).2 = true ∧
    allHandshakeNoHostKey (connect env username host a t).2 = true ∧
    handshakeCount (connect env username host a t).2 ≤ 1 ∧
    filesRead (connect env username host a t).2 = [] := by
  by_cases hu : username = ""
  · subst hu
    cases hcu : env.currentUser with
    | error e =>
      simp [connect, hcu, allHandshakeSingleAuth, allHandshakeNoHostKey,
            handshakeCount, filesRead]
    | ok u0 =>
      cases hd : env.dialTCP (addPortToHost host) t with
      | error e =>
        simp [connect, hcu, hd, allHandshakeSingleAuth, allHandshakeNoHostKey,
              handshakeCount, filesRead]
      | ok conn =>
        cases hcc : env.newClientConn conn (addPortToHost host)
            { user := u0.username, auth := [a], hostKeyCallback := none } with
        | error e =>
          simp [connect, hcu, hd, hcc, allHandshakeSingleAuth,
                allHandshakeNoHostKey, handshakeCount, filesRead]
        | ok c =>
          simp [connect, hcu, hd, hcc, allHandshakeSingleAuth,
                allHandshakeNoHostKey, handshakeCount, filesRead]
  · cases hd : env.dialTCP (addPortToHost host) t with
    | error e =>
      simp [connect, hu, hd, allHandshakeSingleAuth, allHandshakeNoHostKey,
            handshakeCount, filesRead]
    | ok conn =>
      cases hcc : env.newClientConn conn (addPortToHost host)
          { user := username, auth := [a], hostKeyCallback := none } with
      | error e =>
        simp [connect, hu, hd, hcc, allHandshakeSingleAuth,
              allHandshakeNoHostKey, handshakeCount, filesRead]
      | ok c =>
        simp [connect, hu, hd, hcc, allHandshakeSingleAuth,
              allHandshakeNoHostKey, handshakeCount, filesRead]

/-- Claim C3: a connect call with an empty username resolves the
handshake username to the invoking operating-system user, and a failing
current-user lookup makes `connect` return an error without any TCP
dial. -/
theorem connect_empty_username_resolution (env : Env) (host : String)
    (a : AuthMethod) (t : Nat) :
    (∀ u, env.currentUser = Except.ok u →
      allHandshakeUser (connect env "" host a t).2 u.username = true) ∧
    (∀ e, env.currentUser = Except.error e →
      exceptIsError (connect env "" host a t).1 = true ∧
      hasDialTCP (connect env "" host a t).2 = false) := by
  constructor
  · intro u hcu
    cases hd : env.dialTCP (addPortToHost host) t with
    | error e =>
      simp [connect, hcu, hd, allHandshakeUser]
    | ok conn =>
      cases hcc : env.newClientConn conn (addPortToHost host)
          { user := u.username, auth := [a], hostKeyCallback := none } with
      | error e => simp [connect, hcu, hd, hcc, allHandshakeUser]
      | ok c => simp [connect, hcu, hd, hcc, allHandshakeUser]
  · intro e hcu
    simp [connect, hcu, exceptIsError, hasDialTCP]

/-- Witness for C3: with a resolvable user "alice" every handshake uses
"alice"; with a failing lookup the call errors and never dials. -/
theorem connect_empty_username_resolution_witness :
    allHandshakeUser
      (connect testEnv "" "example.com" (AuthMethod.password "pw") 5).2 "alice" = true ∧
    exceptIsError
      (connect failUserEnv "" "example.com" (AuthMethod.password "pw") 5).1 = true ∧
    hasDialTCP
      (connect failUserEnv "" "example.com" (AuthMethod.password "pw") 5).2 = false := by
  have h1 := (connect_empty_username_resolution testEnv "example.com"
    (AuthMethod.password "pw") 5).1 testUser rfl
  have h2 := (connect_empty_username_resolution failUserEnv "example.com"
    (AuthMethod.password "pw") 5).2 (GoError.mk "user lookup failed") rfl
  exact ⟨h1, h2.1, h2.2⟩

/-- Claim C4: when the private-key bytes do not parse, the key-based
connect variants — `ConnectWithKeyTimeout`, `ConnectWithKey`, and the
key-file variant after a successful file read — return the parse error
and never attempt a TCP dial. -/
theorem connect_key_parse_error_no_dial (env : Env)
    (host username privKey : String) (t : Nat) :
    ∀ e, env.parsePrivateKey privKey = Except.error e →
      ((ConnectWithKeyTimeout env host username privKey t).1 = Except.error e ∧
       hasDialTCP (ConnectWithKeyTimeout env host username privKey t).2 = false) ∧
      ((ConnectWithKey env host username privKey).1 = Except.error e ∧
       hasDialTCP (ConnectWithKey env host username privKey).2 = false) ∧
      (∀ p, env.readFile (resolveKeyPath env p) = Except.ok privKey →
        (ConnectWithKeyFileTimeout env host username p t).1 = Except.error e ∧
        hasDialTCP (ConnectWithKeyFileTimeout env host username p t).2 = false) := by
  intro e he
  have hkt : ConnectWithKeyTimeout env host username privKey t =
      (Except.error e, []) := by
    simp [ConnectWithKeyTimeout, he]
  have hkd : ConnectWithKey env host username privKey = (Except.error e, []) := by
    simp [ConnectWithKey, ConnectWithKeyTimeout, he]
  refine ⟨⟨by simp [hkt], by simp [hkt, hasDialTCP]⟩,
          ⟨by simp [hkd], by simp [hkd, hasDialTCP]⟩, ?_⟩
  intro p hread
  by_cases hp : p = ""
  · subst hp
    simp [ConnectWithKeyFileTimeout, hread, hkt, hasDialTCP]
  · simp [ConnectWithKeyFileTimeout, hp, hread, hkt, hasDialTCP]

/-- Witness for C4: unparsable key bytes (directly and via a key file
that reads successfully) yield the parse error with no dial. -/
theorem connect_key_parse_error_no_dial_witness :
    (ConnectWithKeyTimeout badKeyEnv "example.com" "alice" "garbage" 5).1 =
      Except.error (GoError.mk "ssh no key found") ∧
    hasDialTCP (ConnectWithKeyTimeout badKeyEnv "example.com" "alice" "garbage" 5).2 = false ∧
    (ConnectWithKeyFileTimeout badKeyEnv "example.com" "alice" "/some/key" 5).1 =
      Except.error (GoError.mk "ssh no key found") ∧
    hasDialTCP (ConnectWithKeyFileTimeout badKeyEnv "example.com" "alice" "/some/key" 5).2 = false := by
  have h := connect_key_parse_error_no_dial badKeyEnv "example.com" "alice"
    "garbage" 5 (GoError.mk "ssh no key found") rfl
  exact ⟨h.1.1, h.1.2, (h.2.2 "/some/key" rfl).1, (h.2.2 "/some/key" rfl).2⟩

/-- Claim C7: when dialing the unix socket named by `SSH_AUTH_SOCK`
fails (variable unset — Go `net.Dial` on the empty address fails — or
socket unreachable), both agent-based connect variants return the dial
error and never attempt a TCP dial to the target host. -/
theorem connect_sshagent_error_no_dial (env : Env) (host username : String)
    (t : Nat) :
    ∀ e, env.dialUnix (env.getenv "SSH_AUTH_SOCK") = Except.error e →
      (ConnectWithSshAgentTimeout env host username t).1 = Except.error e ∧
      hasDialTCP (ConnectWithSshAgentTimeout env host username t).2 = false ∧
      (ConnectWithSshAgent env host username).1 = Except.error e ∧
      hasDialTCP (ConnectWithSshAgent env host username).2 = false := by
  intro e he
  simp [ConnectWithSshAgent, ConnectWithSshAgentTimeout, he, hasDialTCP]

/-- Witness for C7: in `testEnv` the `SSH_AUTH_SOCK` variable is empty
and the agent socket unreachable; the agent connect errors and no TCP
dial happens. -/
theorem connect_sshagent_error_no_dial_witness :
    (ConnectWithSshAgentTimeout testEnv "example.com" "alice" 5).1 =
      Except.error (GoError.mk "dial unix missing address") ∧
    hasDialTCP (ConnectWithSshAgentTimeout testEnv "example.com" "alice" 5).2 = false ∧
    (ConnectWithSshAgent testEnv "example.com" "alice").1 =
      Except.error (GoError.mk "dial unix missing address") ∧
    hasDialTCP (ConnectWithSshAgent testEnv "example.com" "alice").2 = false :=
  connect_sshagent_error_no_dial testEnv "example.com" "alice" 5
    (GoError.mk "dial unix missing address") rfl

/-- Traces of `ConnectWithKeyTimeout` keep the `connect` handshake
properties and perform no file reads themselves. -/
theorem keyTimeout_trace_props (env : Env) (host username privKey : String)
    (t : Nat) :
    allHandshakeSingleAuth (ConnectWithKeyTimeout env host username privKey t).2 = true ∧
    allHandshakeNoHostKey (ConnectWithKeyTimeout env host username privKey t).2 = true ∧
    handshakeCount (ConnectWithKeyTimeout env host username privKey t).2 ≤ 1 ∧
    filesRead (ConnectWithKeyTimeout env host username privKey t).2 = [] := by
  cases hp : env.parsePrivateKey privKey with
  | error e =>
    simp [ConnectWithKeyTimeout, hp, allHandshakeSingleAuth,
          allHandshakeNoHostKey, handshakeCount, filesRead]
  | ok s =>
    simpa [ConnectWithKeyTimeout, hp] using
      connect_trace_props env username host (AuthMethod.publicKeys s) t

/-- Claim C6: a key-file connect with an empty path reads exactly
`<home>/.ssh/id_rsa` of the resolved current user; and whenever the
resolved path cannot be read, the call returns the read error and never
attempts a TCP dial. -/
theorem connect_keyfile_default_path (env : Env) (host username : String)
    (t : Nat) :
    (∀ u, env.currentUser = Except.ok u →
      filesRead (ConnectWithKeyFileTimeout env host username "" t).2 =
        [filepathJoin [u.homeDir, ".ssh", "id_rsa"]]) ∧
    (∀ p e, env.readFile (resolveKeyPath env p) = Except.error e →
      (ConnectWithKeyFileTimeout env host username p t).1 = Except.error e ∧
      hasDialTCP (ConnectWithKeyFileTimeout env host username p t).2 = false) := by
  constructor
  · intro u hcu
    have hpath : resolveKeyPath env "" = filepathJoin [u.homeDir, ".ssh", "id_rsa"] := by
      simp [resolveKeyPath, hcu]
    cases hr : env.readFile (resolveKeyPath env "") with
    | error e =>
      rw [hpath] at hr
      simp [ConnectWithKeyFileTimeout, hpath, hr, filesRead]
    | ok key =>
      rw [hpath] at hr
      have hk := (keyTimeout_trace_props env host username key t).2.2.2
      simp [filesRead] at hk
      simp [ConnectWithKeyFileTimeout, hpath, hr, filesRead]
      exact hk
  · intro p e hread
    by_cases hp : p = ""
    · subst hp
      simp [ConnectWithKeyFileTimeout, hread, hasDialTCP]
    · simp [ConnectWithKeyFileTimeout, hp, hread, hasDialTCP]

/-- Witness for C6: in `testEnv` the empty path reads exactly
`/home/alice/.ssh/id_rsa`, and an unreadable path errors with no dial. -/
theorem connect_keyfile_default_path_witness :
    filesRead (ConnectWithKeyFileTimeout testEnv "example.com" "bob" "" 5).2 =
      [filepathJoin ["/home/alice", ".ssh", "id_rsa"]] ∧
    (ConnectWithKeyFileTimeout testEnv "example.com" "bob" "/missing" 5).1 =
      Except.error (GoError.mk "open failed") ∧
    hasDialTCP (ConnectWithKeyFileTimeout testEnv "example.com" "bob" "/missing" 5).2 = false := by
  have h := connect_keyfile_default_path testEnv "example.com" "bob" 5
  have h2 := h.2 "/missing" (GoError.mk "open failed") rfl
  exact ⟨h.1 testUser rfl, h2.1, h2.2⟩

/-- Traces of `ConnectWithKeyFileTimeout` keep the `connect` handshake
properties. -/
theorem keyFileTimeout_trace_props (env : Env)
    (host username privKeyPath : String) (t : Nat) :
    allHandshakeSingleAuth (ConnectWithKeyFileTimeout env host username privKeyPath t).2 = true ∧
    allHandshakeNoHostKey (ConnectWithKeyFileTimeout env host username privKeyPath t).2 = true ∧
    handshakeCount (ConnectWithKeyFileTimeout env host username privKeyPath t).2 ≤ 1 := by
  cases hr : env.readFile (resolveKeyPath env privKeyPath) with
  | error e =>
    by_cases hp : privKeyPath = ""
    · subst hp
      simp [ConnectWithKeyFileTimeout, hr, allHandshakeSingleAuth,
            allHandshakeNoHostKey, handshakeCount]
    · simp [ConnectWithKeyFileTimeout, hp, hr, allHandshakeSingleAuth,
            allHandshakeNoHostKey, handshakeCount]
  | ok key =>
    obtain ⟨h1, h2, h3, _⟩ := keyTimeout_trace_props env host username key t
    simp [allHandshakeSingleAuth] at h1
    simp [allHandshakeNoHostKey] at h2
    by_cases hp : privKeyPath = ""
    · subst hp
      refine ⟨?_, ?_, ?_⟩ <;>
        simp [ConnectWithKeyFileTimeout, hr, allHandshakeSingleAuth,
              allHandshakeNoHostKey, handshakeCount] <;>
        first
          | exact h1
          | exact h2
          | simpa [handshakeCount] using h3
    · refine ⟨?_, ?_, ?_⟩ <;>
        simp [ConnectWithKeyFileTimeout, hp, hr, allHandshakeSingleAuth,
              allHandshakeNoHostKey, handshakeCount] <;>
        first
          | exact h1
          | exact h2
          | simpa [handshakeCount] using h3

/-- Traces of `ConnectWithSshAgentTimeout` keep the `connect` handshake
properties. -/
theorem sshAgentTimeout_trace_props (env : Env) (host username : String)
    (t : Nat) :
    allHandshakeSingleAuth (ConnectWithSshAgentTimeout env host username t).2 = true ∧
    allHandshakeNoHostKey (ConnectWithSshAgentTimeout env host username t).2 = true ∧
    handshakeCount (ConnectWithSshAgentTimeout env host username t).2 ≤ 1 := by
  cases hd : env.dialUnix (env.getenv "SSH_AUTH_SOCK") with
  | error e =>
    simp [ConnectWithSshAgentTimeout, hd, allHandshakeSingleAuth,
          allHandshakeNoHostKey, handshakeCount]
  | ok agentConn =>
    obtain ⟨h1, h2, h3, _⟩ :=
      connect_trace_props env username host (AuthMethod.publicKeysCallback agentConn) t
    simp [allHandshakeSingleAuth] at h1
    simp [allHandshakeNoHostKey] at h2
    refine ⟨?_, ?_, ?_⟩ <;>
      simp [ConnectWithSshAgentTimeout, hd, allHandshakeSingleAuth,
            allHandshakeNoHostKey, handshakeCount] <;>
      first
        | exact h1
        | exact h2
        | simpa [handshakeCount] using h3

/-- Claim C8: every public connect variant attaches exactly one
authentication credential to the connection attempt — every handshake it
performs carries an auth-method list of length one, and at most one
handshake (hence no alternate-credential retry) happens per call. -/
theorem connect_single_auth_method (env : Env)
    (host username pass privKey privKeyPath : String) (t : Nat) :
    (allHandshakeSingleAuth (ConnectWithPasswordTimeout env host username pass t).2 = true ∧
     handshakeCount (ConnectWithPasswordTimeout env host username pass t).2 ≤ 1) ∧
    (allHandshakeSingleAuth (ConnectWithPassword env host username pass).2 = true ∧
     handshakeCount (ConnectWithPassword env host username pass).2 ≤ 1) ∧
    (allHandshakeSingleAuth (ConnectWithKeyTimeout env host username privKey t).2 = true ∧
     handshakeCount (ConnectWithKeyTimeout env host username privKey t).2 ≤ 1) ∧
    (allHandshakeSingleAuth (ConnectWithKey env host username privKey).2 = true ∧
     handshakeCount (ConnectWithKey env host username privKey).2 ≤ 1) ∧
    (allHandshakeSingleAuth (ConnectWithKeyFileTimeout env host username privKeyPath t).2 = true ∧
     handshakeCount (ConnectWithKeyFileTimeout env host username privKeyPath t).2 ≤ 1) ∧
    (allHandshakeSingleAuth (ConnectWithKeyFile env host username privKeyPath).2 = true ∧
     handshakeCount (ConnectWithKeyFile env host username privKeyPath).2 ≤ 1) ∧
    (allHandshakeSingleAuth (ConnectWithSshAgentTimeout env host username t).2 = true ∧
     handshakeCount (ConnectWithSshAgentTimeout env host username t).2 ≤ 1) ∧
    (allHandshakeSingleAuth (ConnectWithSshAgent env host username).2 = true ∧
     handshakeCount (ConnectWithSshAgent env host username).2 ≤ 1) :=
  ⟨⟨(connect_trace_props env username host (AuthMethod.password pass) t).1,
    (connect_trace_props env username host (AuthMethod.password pass) t).2.2.1⟩,
   ⟨(connect_trace_props env username host (AuthMethod.password pass) DefaultTimeout).1,
    (connect_trace_props env username host (AuthMethod.password pass) DefaultTimeout).2.2.1⟩,
   ⟨(keyTimeout_trace_props env host username privKey t).1,
    (keyTimeout_trace_props env host username privKey t).2.2.1⟩,
   ⟨(keyTimeout_trace_props env host username privKey DefaultTimeout).1,
    (keyTimeout_trace_props env host username privKey DefaultTimeout).2.2.1⟩,
   ⟨(keyFileTimeout_trace_props env host username privKeyPath t).1,
    (keyFileTimeout_trace_props env host username privKeyPath t).2.2⟩,
   ⟨(keyFileTimeout_trace_props env host username privKeyPath DefaultTimeout).1,
    (keyFileTimeout_trace_props env host username privKeyPath DefaultTimeout).2.2⟩,
   ⟨(sshAgentTimeout_trace_props env host username t).1,
    (sshAgentTimeout_trace_props env host username t).2.2⟩,
   ⟨(sshAgentTimeout_trace_props env host username DefaultTimeout).1,
    (sshAgentTimeout_trace_props env host username DefaultTimeout).2.2⟩⟩

/-- Claim C10: every public connect variant leaves the host-key
verification callback of the `ssh.ClientConfig` unset (nil) in every
handshake it performs — host-key acceptance is entirely up to the
transport collaborator. -/
theorem connect_no_hostkey_callback (env : Env)
    (host username pass privKey privKeyPath : String) (t : Nat) :
    allHandshakeNoHostKey (ConnectWithPasswordTimeout env host username pass t).2 = true ∧
    allHandshakeNoHostKey (ConnectWithPassword env host username pass).2 = true ∧
    allHandshakeNoHostKey (ConnectWithKeyTimeout env host username privKey t).2 = true ∧
    allHandshakeNoHostKey (ConnectWithKey env host username privKey).2 = true ∧
    allHandshakeNoHostKey (ConnectWithKeyFileTimeout env host username privKeyPath t).2 = true ∧
    allHandshakeNoHostKey (ConnectWithKeyFile env host username privKeyPath).2 = true ∧
    allHandshakeNoHostKey (ConnectWithSshAgentTimeout env host username t).2 = true ∧
    allHandshakeNoHostKey (ConnectWithSshAgent env host username).2 = true :=
  ⟨(connect_trace_props env username host (AuthMethod.password pass) t).2.1,
   (connect_trace_props env username host (AuthMethod.password pass) DefaultTimeout).2.1,
   (keyTimeout_trace_props env host username privKey t).2.1,
   (keyTimeout_trace_props env host username privKey DefaultTimeout).2.1,
   (keyFileTimeout_trace_props env host username privKeyPath t).2.1,
   (keyFileTimeout_trace_props env host username privKeyPath DefaultTimeout).2.1,
   (sshAgentTimeout_trace_props env host username t).2.1,
   (sshAgentTimeout_trace_props env host username DefaultTimeout).2.1⟩

end SimpleSSH
